import Mathlib

/-!
Verification of the USB/IP message codec and inspector (`src/usb.c`).

The program receives one fixed-size frame (`struct usbip`, 65536 bytes:
a 20-byte header, a 28-byte payload union, and 65488 bytes of trailing
padding that the flexible `data[]` member aliases), converts its
multi-byte fields from wire order to host order in place
(`usbip_ntoh`), and renders the result as text (`usbip_dump`).

We embed the in-memory frame as a `List Nat` of bytes.  The reference
deployment (Linux vhci, x86/ARM) is little-endian, so the byte-level
effect of `be32toh` on a stored 32-bit field is to reverse its four
bytes, and `le16toh` is the identity on the stored bytes; reading a
32-bit (resp. 16-bit) field of the struct yields the little-endian
value of its stored bytes.  All value-level statements below
(host value of a field after normalization = big/little-endian
interpretation of its wire bytes) are independent of this choice.

Field offsets in the packed `struct usbip`:
  0 command, 4 seqnum, 8 devid, 12 direction, 16 endpoint;
  submit cmd/ret payload: 20, 24, 28, 32, 36 (five `uint32_t`),
  setup packet at 40 (`bmRequestType`, 41 `bRequest`, 42 `wValue`,
  44 `wIndex`, 46 `wLength`), `data[]` at 48;
  unlink cmd/ret payload: one `uint32_t` at 20.
-/

/-- Big-endian interpretation of the four bytes at offset `k`
(out-of-range bytes read as 0, matching the zero-initialized struct). -/
def be32at (f : List Nat) (k : Nat) : Nat :=
  f.getD k 0 * 16777216 + f.getD (k+1) 0 * 65536 + f.getD (k+2) 0 * 256 + f.getD (k+3) 0

/-- Little-endian interpretation of the four bytes at offset `k`:
the value a `uint32_t` field at that offset holds on the (little-endian)
host. -/
def le32at (f : List Nat) (k : Nat) : Nat :=
  f.getD k 0 + f.getD (k+1) 0 * 256 + f.getD (k+2) 0 * 65536 + f.getD (k+3) 0 * 16777216

/-- Little-endian interpretation of the two bytes at offset `k`:
the value a `uint16_t` field at that offset holds on the host. -/
def le16at (f : List Nat) (k : Nat) : Nat :=
  f.getD k 0 + f.getD (k+1) 0 * 256

/-- Byte-level effect of `x = be32toh(x)` on the 32-bit field stored at
offset `k` of a little-endian host: the four bytes are reversed in
place.  (`le16toh` is the identity on a little-endian host and leaves
the stored bytes unchanged, so it has no byte-level counterpart here.) -/
def bswap4at (f : List Nat) (k : Nat) : List Nat :=
  let b0 := f.getD k 0
  let b1 := f.getD (k+1) 0
  let b2 := f.getD (k+2) 0
  let b3 := f.getD (k+3) 0
  ((((f.set k b3).set (k+1) b2).set (k+2) b1).set (k+3) b0)

/-- Lines 221-225 of `usbip_ntoh`: the five header fields are converted
from big-endian wire order to host order, unconditionally. -/
def ntoh_header (f : List Nat) : List Nat :=
  bswap4at (bswap4at (bswap4at (bswap4at (bswap4at f 0) 4) 8) 12) 16

/-- `errno` value returned by `usbip_ntoh` for an unknown command
(Linux `ENOTSUP`). -/
def ENOTSUP : Nat := 95

def USBIP_CMD_SUBMIT : Nat := 1
def USBIP_CMD_UNLINK : Nat := 2
def USBIP_RET_SUBMIT : Nat := 3
def USBIP_RET_UNLINK : Nat := 4

/-- Lines 229-233 resp. 244-248 of `usbip_ntoh`: the five 32-bit
payload fields of a submit command/reply (offsets 20-36) are converted
from big-endian wire order to host order. -/
def ntoh_submit (g : List Nat) : List Nat :=
  bswap4at (bswap4at (bswap4at (bswap4at (bswap4at g 20) 24) 28) 32) 36

/-- Line 240 resp. 255 of `usbip_ntoh`: the single 32-bit payload field
of an unlink command/reply (offset 20) is converted from big-endian
wire order to host order. -/
def ntoh_unlink (g : List Nat) : List Nat :=
  bswap4at g 20

/-- `usbip_ntoh` (src/usb.c:218-261): in-place wire-to-host conversion
of one frame.  Returns the `int` result (0 or `ENOTSUP`) together with
the frame as left in memory.  The header is converted first; the
`switch` on the converted `command` then converts the payload fields of
the recognized kind.  The three `le16toh` assignments on the setup
fields (lines 234-236 and 249-251) are byte-level no-ops on the
little-endian host and are therefore invisible in the byte model. -/
def usbip_ntoh (f : List Nat) : Nat × List Nat :=
  let g := ntoh_header f
  let cmd := le32at g 0
  if cmd = USBIP_CMD_SUBMIT then (0, ntoh_submit g)
  else if cmd = USBIP_CMD_UNLINK then (0, ntoh_unlink g)
  else if cmd = USBIP_RET_SUBMIT then (0, ntoh_submit g)
  else if cmd = USBIP_RET_UNLINK then (0, ntoh_unlink g)
  else (ENOTSUP, g)

/-- Macro `SETUP_DIR` (src/usb.c:103), with C operator precedence made
explicit: `>>` binds tighter than `&`, so the macro computes
`rt & (0b10000000 >> 7)`, i.e. `rt & 1`. -/
def SETUP_DIR (rt : Nat) : Nat := rt &&& (128 >>> 7)

/-- Macro `SETUP_TYP` (src/usb.c:104): `rt & (0b01100000 >> 5)`,
i.e. `rt & 3`. -/
def SETUP_TYP (rt : Nat) : Nat := rt &&& (96 >>> 5)

/-- Macro `SETUP_RCP` (src/usb.c:105): `rt & (0b00011111 >> 0)`,
i.e. `rt & 31`. -/
def SETUP_RCP (rt : Nat) : Nat := rt &&& (31 >>> 0)

/-- `usbip_setup_dir_str` (src/usb.c:107-111). -/
def usbip_setup_dir_str (rt : Nat) : String :=
  if SETUP_DIR rt ≠ 0 then "D2H" else "H2D"

/-- `usbip_setup_typ_str` (src/usb.c:113-122); the C `switch` is
rendered as an if-chain. -/
def usbip_setup_typ_str (rt : Nat) : String :=
  if SETUP_TYP rt = 0 then "standard"
  else if SETUP_TYP rt = 1 then "class"
  else if SETUP_TYP rt = 2 then "vendor"
  else "<reserved>"

/-- `usbip_setup_rcp_str` (src/usb.c:124-134). -/
def usbip_setup_rcp_str (rt : Nat) : String :=
  if SETUP_RCP rt = 0 then "device"
  else if SETUP_RCP rt = 1 then "interface"
  else if SETUP_RCP rt = 2 then "endpoint"
  else if SETUP_RCP rt = 3 then "other"
  else "<reserved>"

/-- `usbip_setup_req_str` (src/usb.c:136-153). -/
def usbip_setup_req_str (req : Nat) : String :=
  if req = 0 then "GET_STATUS"
  else if req = 1 then "CLEAR_FEATURE"
  else if req = 3 then "SET_FEATURE"
  else if req = 5 then "SET_ADDRESS"
  else if req = 6 then "GET_DESCRIPTOR"
  else if req = 7 then "SET_DESCRIPTOR"
  else if req = 8 then "GET_CONFIGURATION"
  else if req = 9 then "SET_CONFIGURATION"
  else if req = 10 then "GET_INTERFACE"
  else if req = 11 then "SET_INTERFACE"
  else if req = 12 then "SYNCH_FRAME"
  else "<reserved>"

/-- Error taxonomy of the codec (spec section 7).  `usbip_ntoh` returns
only 0 or `ENOTSUP`; `ENOTSUP` is `UnsupportedCommand`.  The
`TruncatedBuffer` constructor is present so that statements about it
can be made, but nothing in src/usb.c ever produces it. -/
inductive DecodeError
  | UnsupportedCommand
  | TruncatedBuffer
deriving DecidableEq

/-- `struct usbip_submit_setup` (src/usb.c:45-51), after normalization:
each field holds its host-order value. -/
structure SetupPacket where
  bmRequestType : Nat
  bRequest : Nat
  wValue : Nat
  wIndex : Nat
  wLength : Nat
deriving DecidableEq

/-- The four payload shapes of the union in `struct usbip`
(src/usb.c:88-98), as a tagged variant; the trailing `data` carries the
variable-length bytes (`data[]`, length `transfer_buffer_length`
resp. `actual_length`). -/
inductive Payload
  | submitCmd (transfer_flags transfer_buffer_length start_frame
      number_of_packets interval : Nat) (setup : SetupPacket)
      (data : List Nat)
  | unlinkCmd (seqnum : Nat)
  | submitRet (status actual_length start_frame number_of_packets
      error_count : Nat) (setup : SetupPacket) (data : List Nat)
  | unlinkRet (status : Nat)
deriving DecidableEq

/-- A decoded, host-order USB/IP message: the header fields of
`struct usbip` plus the payload variant selected by the command code.
The command code is determined by the variant (the data-model invariant
that payload tag and command always agree is thereby representable by
construction). -/
structure Message where
  seqnum : Nat
  devid : Nat
  direction : Nat
  endpoint : Nat
  payload : Payload
deriving DecidableEq

/-- The command code of a message, as carried by its payload tag. -/
def Message.command (m : Message) : Nat :=
  match m.payload with
  | .submitCmd .. => USBIP_CMD_SUBMIT
  | .unlinkCmd .. => USBIP_CMD_UNLINK
  | .submitRet .. => USBIP_RET_SUBMIT
  | .unlinkRet .. => USBIP_RET_UNLINK

/-- The setup packet as read from a wire frame: `bmRequestType` and
`bRequest` are single bytes (offsets 40, 41); `wValue`, `wIndex`,
`wLength` travel little-endian (offsets 42, 44, 46), so `le16toh`
leaves their host value equal to the little-endian reading of the wire
bytes. -/
def readSetup (f : List Nat) : SetupPacket :=
  ⟨f.getD 40 0, f.getD 41 0, le16at f 42, le16at f 44, le16at f 46⟩

/-- The message codec over one wire frame: `recv` into a
zero-initialized `struct usbip` (out-of-range bytes read as 0),
`usbip_ntoh`, then the per-kind typed field reads of the struct.  Each
field's host value after `usbip_ntoh` is the big-endian interpretation
of its wire bytes (header and submit payload words) resp. the
little-endian interpretation (setup `wValue`/`wIndex`/`wLength`), which
is what the readers below compute directly from the wire bytes.  The
variable-length `data[]` starts at offset 48 and its length is the
declared `transfer_buffer_length`/`actual_length` (offset 24); no
bounds check is performed anywhere in src/usb.c. -/
def decode (f : List Nat) : Except DecodeError Message :=
  let cmd := be32at f 0
  if cmd = USBIP_CMD_SUBMIT then
    .ok ⟨be32at f 4, be32at f 8, be32at f 12, be32at f 16,
      .submitCmd (be32at f 20) (be32at f 24) (be32at f 28) (be32at f 32)
        (be32at f 36) (readSetup f) ((f.drop 48).take (be32at f 24))⟩
  else if cmd = USBIP_CMD_UNLINK then
    .ok ⟨be32at f 4, be32at f 8, be32at f 12, be32at f 16,
      .unlinkCmd (be32at f 20)⟩
  else if cmd = USBIP_RET_SUBMIT then
    .ok ⟨be32at f 4, be32at f 8, be32at f 12, be32at f 16,
      .submitRet (be32at f 20) (be32at f 24) (be32at f 28) (be32at f 32)
        (be32at f 36) (readSetup f) ((f.drop 48).take (be32at f 24))⟩
  else if cmd = USBIP_RET_UNLINK then
    .ok ⟨be32at f 4, be32at f 8, be32at f 12, be32at f 16,
      .unlinkRet (be32at f 20)⟩
  else
    .error .UnsupportedCommand

/-- `main` (src/usb.c:266, 284): `struct usbip usbip = {};` then
`recv(socks[1], &usbip, sizeof(usbip), 0)` — the received datagram
fills a zero-initialized 65536-byte frame and is truncated at the frame
size. -/
def recvFrame (buf : List Nat) : List Nat :=
  (buf ++ List.replicate 65536 0).take 65536

/-- Big-endian serialization of a 32-bit value. -/
def enc32be (v : Nat) : List Nat :=
  [v / 16777216 % 256, v / 65536 % 256, v / 256 % 256, v % 256]

/-- Little-endian serialization of a 16-bit value. -/
def enc16le (v : Nat) : List Nat :=
  [v % 256, v / 256 % 256]

/-- Modelled from the spec: serialization of the 8-byte setup packet
(`bmRequestType`, `bRequest` single bytes; `wValue`, `wIndex`,
`wLength` little-endian per the section 4.3 byte-order table).
src/usb.c has no encoder. -/
def encodeSetup (s : SetupPacket) : List Nat :=
  [s.bmRequestType, s.bRequest] ++
    enc16le s.wValue ++ enc16le s.wIndex ++ enc16le s.wLength

/-- Modelled from the spec: the fixed fields and trailing data of one
message in wire order (sections 4.2/4.3: header and submit payload
words big-endian, setup sub-fields little-endian, then the
variable-length data).  src/usb.c has no encoder. -/
def encodeBody (m : Message) : List Nat :=
  enc32be m.command ++ enc32be m.seqnum ++ enc32be m.devid ++
  enc32be m.direction ++ enc32be m.endpoint ++
  (match m.payload with
   | .submitCmd tf tbl sf np iv s d =>
       enc32be tf ++ enc32be tbl ++ enc32be sf ++ enc32be np ++
       enc32be iv ++ encodeSetup s ++ d
   | .unlinkCmd sq => enc32be sq
   | .submitRet st al sf np ec s d =>
       enc32be st ++ enc32be al ++ enc32be sf ++ enc32be np ++
       enc32be ec ++ encodeSetup s ++ d
   | .unlinkRet st => enc32be st)

/-- Modelled from the spec: `encode(message) -> bytes` (section 4.2),
the wire-order serialization zero-padded to the fixed maximum frame
size (section 4.1).  src/usb.c has no encoder. -/
def encode (m : Message) : List Nat :=
  encodeBody m ++ List.replicate (65536 - (encodeBody m).length) 0

/-- Well-formedness of a setup packet: field values fit their wire
widths. -/
def SetupPacket.WF (s : SetupPacket) : Prop :=
  s.bmRequestType < 256 ∧ s.bRequest < 256 ∧ s.wValue < 65536 ∧
  s.wIndex < 65536 ∧ s.wLength < 65536

/-- Well-formedness of a payload: field values fit 32 bits, the
trailing data has exactly the declared length (spec section 3), its
bytes are bytes, and it fits the 65488-byte data region of the frame. -/
def Payload.WF : Payload → Prop
  | .submitCmd tf tbl sf np iv s d =>
      tf < 4294967296 ∧ tbl < 4294967296 ∧ sf < 4294967296 ∧
      np < 4294967296 ∧ iv < 4294967296 ∧ s.WF ∧
      d.length = tbl ∧ tbl ≤ 65488 ∧ ∀ b ∈ d, b < 256
  | .unlinkCmd sq => sq < 4294967296
  | .submitRet st al sf np ec s d =>
      st < 4294967296 ∧ al < 4294967296 ∧ sf < 4294967296 ∧
      np < 4294967296 ∧ ec < 4294967296 ∧ s.WF ∧
      d.length = al ∧ al ≤ 65488 ∧ ∀ b ∈ d, b < 256
  | .unlinkRet st => st < 4294967296

/-- Well-formedness of a message: every field fits its wire width and
the variable-length data matches its declared length. -/
def Message.WF (m : Message) : Prop :=
  m.seqnum < 4294967296 ∧ m.devid < 4294967296 ∧
  m.direction < 4294967296 ∧ m.endpoint < 4294967296 ∧ m.payload.WF

/-- Lowercase hexadecimal digit, as produced by `%02x`. -/
def hexDigit (n : Nat) : Char :=
  if n < 10 then Char.ofNat (48 + n) else Char.ofNat (87 + n)

/-- `%02x` rendering of one byte. -/
def hexByte (b : Nat) : String :=
  String.mk [hexDigit (b / 16 % 16), hexDigit (b % 16)]

/-- Uppercase hexadecimal digit, as produced by `%08X`. -/
def hexDigitU (n : Nat) : Char :=
  if n < 10 then Char.ofNat (48 + n) else Char.ofNat (55 + n)

/-- `%08X` rendering of a 32-bit value. -/
def hex8u (v : Nat) : String :=
  String.mk [hexDigitU (v / 268435456 % 16), hexDigitU (v / 16777216 % 16),
    hexDigitU (v / 1048576 % 16), hexDigitU (v / 65536 % 16),
    hexDigitU (v / 4096 % 16), hexDigitU (v / 256 % 16),
    hexDigitU (v / 16 % 16), hexDigitU (v % 16)]

/-- One iteration of the data-dump loop (src/usb.c:181-182, 204-205):
`fprintf(f, "%s%02x", i %% 32 == 0 ? "\n    " : "", u->...data[i])`.
`data[i]` is the frame byte at offset `off + i`; an access beyond the
frame (`data` has only the 65488 padding bytes behind it, and the loop
bound is the unchecked declared length) is an out-of-bounds read —
undefined behavior, modeled as `none`. -/
def dumpStep (f : List Nat) (off : Nat) (acc : Option String) (i : Nat) :
    Option String :=
  match acc, f.get? (off + i) with
  | some s, some b =>
      some (s ++ (if i % 32 = 0 then "\n    " else "") ++ hexByte b)
  | _, _ => none

/-- The data-dump loop: `len` iterations of `dumpStep` starting from
the empty accumulated output. -/
def dumpData (f : List Nat) (off len : Nat) : Option String :=
  (List.range len).foldl (dumpStep f off) (some "")

/-- Lines 158-163 of `usbip_dump`: the opening brace and the five
header fields, read in host order from the normalized frame. -/
def dumpHeader (f : List Nat) : String :=
  "\x7b\n" ++
  "  .command = " ++ toString (le32at f 0) ++ "\n" ++
  "  .seqnum = " ++ toString (le32at f 4) ++ "\n" ++
  "  .devid = " ++ toString (le32at f 8) ++ "\n" ++
  "  .direction = " ++ toString (le32at f 12) ++ "\n" ++
  "  .endpoint = " ++ toString (le32at f 16) ++ "\n"

/-- Lines 167-178 of `usbip_dump`: the fixed fields of a submit
command. -/
def dumpSubmitCmdFixed (f : List Nat) : String :=
  "  .cmd.submit.transfer_flags = 0x" ++ hex8u (le32at f 20) ++ "\n" ++
  "  .cmd.submit.transfer_buffer_length = " ++ toString (le32at f 24) ++ "\n" ++
  "  .cmd.submit.start_frame = " ++ toString (le32at f 28) ++ "\n" ++
  "  .cmd.submit.number_of_packets = " ++ toString (le32at f 32) ++ "\n" ++
  "  .cmd.submit.interval = " ++ toString (le32at f 36) ++ "\n" ++
  "  .cmd.submit.setup.direction = " ++ usbip_setup_dir_str (f.getD 40 0) ++ "\n" ++
  "  .cmd.submit.setup.type = " ++ usbip_setup_typ_str (f.getD 40 0) ++ "\n" ++
  "  .cmd.submit.setup.recipient = " ++ usbip_setup_rcp_str (f.getD 40 0) ++ "\n" ++
  "  .cmd.submit.setup.bRequest = " ++ usbip_setup_req_str (f.getD 41 0) ++ "\n" ++
  "  .cmd.submit.setup.wValue = " ++ toString (le16at f 42) ++ "\n" ++
  "  .cmd.submit.setup.wIndex = " ++ toString (le16at f 44) ++ "\n" ++
  "  .cmd.submit.setup.wLength = " ++ toString (le16at f 46) ++ "\n"

/-- Lines 192-201 of `usbip_dump`: the fixed fields of a submit
reply. -/
def dumpSubmitRetFixed (f : List Nat) : String :=
  "  .ret.submit.status = " ++ toString (le32at f 20) ++ "\n" ++
  "  .ret.submit.actual_length = " ++ toString (le32at f 24) ++ "\n" ++
  "  .ret.submit.start_frame = " ++ toString (le32at f 28) ++ "\n" ++
  "  .ret.submit.number_of_packets = " ++ toString (le32at f 32) ++ "\n" ++
  "  .ret.submit.error_count = " ++ toString (le32at f 36) ++ "\n" ++
  "  .ret.submit.setup.bmRequestType = " ++ toString (f.getD 40 0) ++ "\n" ++
  "  .ret.submit.setup.bRequest = " ++ toString (f.getD 41 0) ++ "\n" ++
  "  .ret.submit.setup.wValue = " ++ toString (le16at f 42) ++ "\n" ++
  "  .ret.submit.setup.wIndex = " ++ toString (le16at f 44) ++ "\n" ++
  "  .ret.submit.setup.wLength = " ++ toString (le16at f 46) ++ "\n"

/-- `usbip_dump` (src/usb.c:155-216) over the normalized in-memory
frame: the header lines, a payload section selected by the `switch` on
the host-order command (no `default` case: an unknown command prints no
payload lines), and the closing brace.  The result is `none` exactly
when the data loop would read past the end of the frame. -/
def usbip_dump (f : List Nat) : Option String :=
  let tail :=
    if le32at f 0 = USBIP_CMD_SUBMIT then
      (dumpData f 48 (le32at f 24)).map
        (fun d => dumpSubmitCmdFixed f ++ "  .cmd.submit.data[] = \x7b" ++
          d ++ "\n  \x7d\n")
    else if le32at f 0 = USBIP_CMD_UNLINK then
      some ("  .cmd.unlink.seqnum = " ++ toString (le32at f 20) ++ "\n")
    else if le32at f 0 = USBIP_RET_SUBMIT then
      (dumpData f 48 (le32at f 24)).map
        (fun d => dumpSubmitRetFixed f ++ "  .ret.submit.data[] = \x7b" ++
          d ++ "\n  \x7d\n")
    else if le32at f 0 = USBIP_RET_UNLINK then
      some ("  .ret.unlink.status = " ++ toString (le32at f 20) ++ "\n")
    else some ""
  tail.map (fun t => dumpHeader f ++ t ++ "\x7d\n")

/-- Wire frame carrying the endianness-table example of the spec:
command bytes `00 00 00 01`, `transfer_buffer_length` bytes
`00 00 00 10`, setup `wValue` bytes `34 12`. -/
def c1frame : List Nat :=
  [0, 0, 0, 1] ++ List.replicate 20 0 ++ [0, 0, 0, 16] ++
    List.replicate 14 0 ++ [52, 18] ++ List.replicate 65492 0

/-- Wire frame with unknown command code 99. -/
def c99frame : List Nat :=
  [0, 0, 0, 99] ++ List.replicate 65532 0

/-- The 58-byte datagram of the spec's truncation example: a
SubmitReply declaring `actual_length = 64` but supplying only 10
trailing data bytes. -/
def c4buf : List Nat :=
  [0, 0, 0, 3] ++ List.replicate 20 0 ++ [0, 0, 0, 64] ++
    List.replicate 20 0 ++ [1, 2, 3, 4, 5, 6, 7, 8, 9, 10]

/-- The message the codec actually produces from `c4buf`: success, the
missing 54 data bytes read as zeros from the zero-initialized frame. -/
def c4msg : Message :=
  ⟨0, 0, 0, 0,
    .submitRet 0 64 0 0 0 ⟨0, 0, 0, 0, 0⟩
      ([1, 2, 3, 4, 5, 6, 7, 8, 9, 10] ++ List.replicate 54 0)⟩

/-- Normalized (host-order) frame of a SubmitReply whose declared
`actual_length`, 65489, exceeds the 65488 bytes behind `data[]`. -/
def c5frame : List Nat :=
  [3, 0, 0, 0] ++ List.replicate 20 0 ++ [209, 255, 0, 0] ++
    List.replicate 65508 0

/-- Normalized (host-order) frame of a SubmitCommand with
`transfer_buffer_length = 16`, within bounds. -/
def c5okframe : List Nat :=
  [1, 0, 0, 0] ++ List.replicate 20 0 ++ [16, 0, 0, 0] ++
    List.replicate 65508 0

/-- Wire frame of an UnlinkCommand (command bytes `00 00 00 02`). -/
def c9frame : List Nat :=
  [0, 0, 0, 2] ++ List.replicate 65532 0

/-- A small well-formed SubmitCommand message for the round-trip
witness. -/
def c6msg : Message :=
  ⟨7, 5, 1, 2, .submitCmd 512 3 0 0 16 ⟨128, 6, 4660, 0, 3⟩ [1, 2, 3]⟩

/-! ### Byte-access toolkit -/

theorem getD_set_ne {l : List Nat} {m n : Nat} (a : Nat) (h : m ≠ n) :
    (l.set m a).getD n 0 = l.getD n 0 := by
  rw [List.getD_eq_getD_get?, List.getD_eq_getD_get?, List.get?_set_ne _ _ h]

theorem getD_set_self {l : List Nat} {n : Nat} (a : Nat) (h : n < l.length) :
    (l.set n a).getD n 0 = a := by
  rw [List.getD_eq_getD_get?, List.get?_set_eq_of_lt _ h]
  rfl

@[simp] theorem bswap4at_length (f : List Nat) (k : Nat) :
    (bswap4at f k).length = f.length := by
  simp [bswap4at]

theorem getD_bswap4at_out {f : List Nat} {k j : Nat}
    (h : j < k ∨ k + 4 ≤ j) : (bswap4at f k).getD j 0 = f.getD j 0 := by
  unfold bswap4at
  rw [getD_set_ne _ (by omega), getD_set_ne _ (by omega),
    getD_set_ne _ (by omega), getD_set_ne _ (by omega)]

theorem getD_bswap4at_0 {f : List Nat} {k : Nat} (h : k + 3 < f.length) :
    (bswap4at f k).getD k 0 = f.getD (k+3) 0 := by
  unfold bswap4at
  rw [getD_set_ne _ (by omega), getD_set_ne _ (by omega),
    getD_set_ne _ (by omega), getD_set_self _ (by simpa using by omega)]

theorem getD_bswap4at_1 {f : List Nat} {k : Nat} (h : k + 3 < f.length) :
    (bswap4at f k).getD (k+1) 0 = f.getD (k+2) 0 := by
  unfold bswap4at
  rw [getD_set_ne _ (by omega), getD_set_ne _ (by omega),
    getD_set_self _ (by simpa using by omega)]

theorem getD_bswap4at_2 {f : List Nat} {k : Nat} (h : k + 3 < f.length) :
    (bswap4at f k).getD (k+2) 0 = f.getD (k+1) 0 := by
  unfold bswap4at
  rw [getD_set_ne _ (by omega), getD_set_self _ (by simpa using by omega)]

theorem getD_bswap4at_3 {f : List Nat} {k : Nat} (h : k + 3 < f.length) :
    (bswap4at f k).getD (k+3) 0 = f.getD k 0 := by
  unfold bswap4at
  rw [getD_set_self _ (by simpa using by omega)]

theorem le32at_bswap4at {f : List Nat} {k : Nat} (h : k + 3 < f.length) :
    le32at (bswap4at f k) k = be32at f k := by
  unfold le32at be32at
  rw [getD_bswap4at_0 h, getD_bswap4at_1 h, getD_bswap4at_2 h, getD_bswap4at_3 h]
  ring

theorem le32at_bswap4at_out {f : List Nat} {k j : Nat}
    (h : j + 4 ≤ k ∨ k + 4 ≤ j) : le32at (bswap4at f k) j = le32at f j := by
  unfold le32at
  rw [getD_bswap4at_out (by omega), getD_bswap4at_out (by omega),
    getD_bswap4at_out (by omega), getD_bswap4at_out (by omega)]

theorem be32at_bswap4at_out {f : List Nat} {k j : Nat}
    (h : j + 4 ≤ k ∨ k + 4 ≤ j) : be32at (bswap4at f k) j = be32at f j := by
  unfold be32at
  rw [getD_bswap4at_out (by omega), getD_bswap4at_out (by omega),
    getD_bswap4at_out (by omega), getD_bswap4at_out (by omega)]

theorem le16at_bswap4at_out {f : List Nat} {k j : Nat}
    (h : j + 2 ≤ k ∨ k + 4 ≤ j) : le16at (bswap4at f k) j = le16at f j := by
  unfold le16at
  rw [getD_bswap4at_out (by omega), getD_bswap4at_out (by omega)]

@[simp] theorem ntoh_header_length (f : List Nat) :
    (ntoh_header f).length = f.length := by
  simp [ntoh_header]

theorem getD_ntoh_header_out {f : List Nat} {j : Nat} (h : 20 ≤ j) :
    (ntoh_header f).getD j 0 = f.getD j 0 := by
  unfold ntoh_header
  rw [getD_bswap4at_out (by omega), getD_bswap4at_out (by omega),
    getD_bswap4at_out (by omega), getD_bswap4at_out (by omega),
    getD_bswap4at_out (by omega)]

theorem be32at_ntoh_header_out {f : List Nat} {j : Nat} (h : 20 ≤ j) :
    be32at (ntoh_header f) j = be32at f j := by
  unfold be32at
  rw [getD_ntoh_header_out (by omega), getD_ntoh_header_out (by omega),
    getD_ntoh_header_out (by omega), getD_ntoh_header_out (by omega)]

theorem le16at_ntoh_header_out {f : List Nat} {j : Nat} (h : 20 ≤ j) :
    le16at (ntoh_header f) j = le16at f j := by
  unfold le16at
  rw [getD_ntoh_header_out (by omega), getD_ntoh_header_out (by omega)]

theorem le32at_ntoh_header_0 {f : List Nat} (h : 20 ≤ f.length) :
    le32at (ntoh_header f) 0 = be32at f 0 := by
  unfold ntoh_header
  rw [le32at_bswap4at_out (by omega), le32at_bswap4at_out (by omega),
    le32at_bswap4at_out (by omega), le32at_bswap4at_out (by omega),
    le32at_bswap4at (by omega)]

theorem le32at_ntoh_header_4 {f : List Nat} (h : 20 ≤ f.length) :
    le32at (ntoh_header f) 4 = be32at f 4 := by
  unfold ntoh_header
  rw [le32at_bswap4at_out (by omega), le32at_bswap4at_out (by omega),
    le32at_bswap4at_out (by omega), le32at_bswap4at (by simpa using by omega),
    be32at_bswap4at_out (by omega)]

theorem le32at_ntoh_header_8 {f : List Nat} (h : 20 ≤ f.length) :
    le32at (ntoh_header f) 8 = be32at f 8 := by
  unfold ntoh_header
  rw [le32at_bswap4at_out (by omega), le32at_bswap4at_out (by omega),
    le32at_bswap4at (by simpa using by omega),
    be32at_bswap4at_out (by omega), be32at_bswap4at_out (by omega)]

theorem le32at_ntoh_header_12 {f : List Nat} (h : 20 ≤ f.length) :
    le32at (ntoh_header f) 12 = be32at f 12 := by
  unfold ntoh_header
  rw [le32at_bswap4at_out (by omega), le32at_bswap4at (by simpa using by omega),
    be32at_bswap4at_out (by omega), be32at_bswap4at_out (by omega),
    be32at_bswap4at_out (by omega)]

theorem le32at_ntoh_header_16 {f : List Nat} (h : 20 ≤ f.length) :
    le32at (ntoh_header f) 16 = be32at f 16 := by
  unfold ntoh_header
  rw [le32at_bswap4at (by simpa using by omega),
    be32at_bswap4at_out (by omega), be32at_bswap4at_out (by omega),
    be32at_bswap4at_out (by omega), be32at_bswap4at_out (by omega)]

theorem getD_ntoh_submit_out {g : List Nat} {j : Nat}
    (h : j < 20 ∨ 40 ≤ j) : (ntoh_submit g).getD j 0 = g.getD j 0 := by
  unfold ntoh_submit
  rw [getD_bswap4at_out (by omega), getD_bswap4at_out (by omega),
    getD_bswap4at_out (by omega), getD_bswap4at_out (by omega),
    getD_bswap4at_out (by omega)]

theorem le32at_ntoh_submit_out {g : List Nat} {j : Nat}
    (h : j + 4 ≤ 20 ∨ 40 ≤ j) : le32at (ntoh_submit g) j = le32at g j := by
  unfold le32at
  rw [getD_ntoh_submit_out (by omega), getD_ntoh_submit_out (by omega),
    getD_ntoh_submit_out (by omega), getD_ntoh_submit_out (by omega)]

theorem le16at_ntoh_submit_out {g : List Nat} {j : Nat}
    (h : j + 2 ≤ 20 ∨ 40 ≤ j) : le16at (ntoh_submit g) j = le16at g j := by
  unfold le16at
  rw [getD_ntoh_submit_out (by omega), getD_ntoh_submit_out (by omega)]

@[simp] theorem ntoh_submit_length (g : List Nat) :
    (ntoh_submit g).length = g.length := by
  simp [ntoh_submit]

@[simp] theorem ntoh_unlink_length (g : List Nat) :
    (ntoh_unlink g).length = g.length := by
  simp [ntoh_unlink]

theorem le32at_ntoh_submit_20 {g : List Nat} (h : 40 ≤ g.length) :
    le32at (ntoh_submit g) 20 = be32at g 20 := by
  unfold ntoh_submit
  rw [le32at_bswap4at_out (by omega), le32at_bswap4at_out (by omega),
    le32at_bswap4at_out (by omega), le32at_bswap4at_out (by omega),
    le32at_bswap4at (by omega)]

theorem le32at_ntoh_submit_24 {g : List Nat} (h : 40 ≤ g.length) :
    le32at (ntoh_submit g) 24 = be32at g 24 := by
  unfold ntoh_submit
  rw [le32at_bswap4at_out (by omega), le32at_bswap4at_out (by omega),
    le32at_bswap4at_out (by omega), le32at_bswap4at (by simpa using by omega),
    be32at_bswap4at_out (by omega)]

theorem le32at_ntoh_submit_28 {g : List Nat} (h : 40 ≤ g.length) :
    le32at (ntoh_submit g) 28 = be32at g 28 := by
  unfold ntoh_submit
  rw [le32at_bswap4at_out (by omega), le32at_bswap4at_out (by omega),
    le32at_bswap4at (by simpa using by omega),
    be32at_bswap4at_out (by omega), be32at_bswap4at_out (by omega)]

theorem le32at_ntoh_submit_32 {g : List Nat} (h : 40 ≤ g.length) :
    le32at (ntoh_submit g) 32 = be32at g 32 := by
  unfold ntoh_submit
  rw [le32at_bswap4at_out (by omega), le32at_bswap4at (by simpa using by omega),
    be32at_bswap4at_out (by omega), be32at_bswap4at_out (by omega),
    be32at_bswap4at_out (by omega)]

theorem le32at_ntoh_submit_36 {g : List Nat} (h : 40 ≤ g.length) :
    le32at (ntoh_submit g) 36 = be32at g 36 := by
  unfold ntoh_submit
  rw [le32at_bswap4at (by simpa using by omega),
    be32at_bswap4at_out (by omega), be32at_bswap4at_out (by omega),
    be32at_bswap4at_out (by omega), be32at_bswap4at_out (by omega)]

/-- `usbip_ntoh` with its dispatch condition re-expressed over the raw
wire bytes: the `switch` tests the already-converted command, whose
host value equals the big-endian reading of the wire bytes. -/
theorem usbip_ntoh_eq (f : List Nat) (h : 20 ≤ f.length) :
    usbip_ntoh f =
      if be32at f 0 = 1 then (0, ntoh_submit (ntoh_header f))
      else if be32at f 0 = 2 then (0, ntoh_unlink (ntoh_header f))
      else if be32at f 0 = 3 then (0, ntoh_submit (ntoh_header f))
      else if be32at f 0 = 4 then (0, ntoh_unlink (ntoh_header f))
      else (ENOTSUP, ntoh_header f) := by
  unfold usbip_ntoh
  simp only [USBIP_CMD_SUBMIT, USBIP_CMD_UNLINK, USBIP_RET_SUBMIT,
    USBIP_RET_UNLINK, le32at_ntoh_header_0 h]

/-- Header block: whatever the submit payload conversion does, the five
header words read back as the big-endian interpretation of the wire
bytes. -/
theorem header_reads_submit (f : List Nat) (h : 20 ≤ f.length) :
    le32at (ntoh_submit (ntoh_header f)) 0 = be32at f 0 ∧
    le32at (ntoh_submit (ntoh_header f)) 4 = be32at f 4 ∧
    le32at (ntoh_submit (ntoh_header f)) 8 = be32at f 8 ∧
    le32at (ntoh_submit (ntoh_header f)) 12 = be32at f 12 ∧
    le32at (ntoh_submit (ntoh_header f)) 16 = be32at f 16 :=
  ⟨(le32at_ntoh_submit_out (by omega)).trans (le32at_ntoh_header_0 h),
   (le32at_ntoh_submit_out (by omega)).trans (le32at_ntoh_header_4 h),
   (le32at_ntoh_submit_out (by omega)).trans (le32at_ntoh_header_8 h),
   (le32at_ntoh_submit_out (by omega)).trans (le32at_ntoh_header_12 h),
   (le32at_ntoh_submit_out (by omega)).trans (le32at_ntoh_header_16 h)⟩

/-- Header block for the unlink payload conversion. -/
theorem header_reads_unlink (f : List Nat) (h : 20 ≤ f.length) :
    le32at (ntoh_unlink (ntoh_header f)) 0 = be32at f 0 ∧
    le32at (ntoh_unlink (ntoh_header f)) 4 = be32at f 4 ∧
    le32at (ntoh_unlink (ntoh_header f)) 8 = be32at f 8 ∧
    le32at (ntoh_unlink (ntoh_header f)) 12 = be32at f 12 ∧
    le32at (ntoh_unlink (ntoh_header f)) 16 = be32at f 16 :=
  ⟨(le32at_bswap4at_out (by omega)).trans (le32at_ntoh_header_0 h),
   (le32at_bswap4at_out (by omega)).trans (le32at_ntoh_header_4 h),
   (le32at_bswap4at_out (by omega)).trans (le32at_ntoh_header_8 h),
   (le32at_bswap4at_out (by omega)).trans (le32at_ntoh_header_12 h),
   (le32at_bswap4at_out (by omega)).trans (le32at_ntoh_header_16 h)⟩

/-- Payload block: the five submit payload words read back big-endian,
and the three setup sub-fields read back little-endian (their wire
bytes untouched on the little-endian host). -/
theorem submit_payload_reads (f : List Nat) (h : 40 ≤ f.length) :
    le32at (ntoh_submit (ntoh_header f)) 20 = be32at f 20 ∧
    le32at (ntoh_submit (ntoh_header f)) 24 = be32at f 24 ∧
    le32at (ntoh_submit (ntoh_header f)) 28 = be32at f 28 ∧
    le32at (ntoh_submit (ntoh_header f)) 32 = be32at f 32 ∧
    le32at (ntoh_submit (ntoh_header f)) 36 = be32at f 36 ∧
    le16at (ntoh_submit (ntoh_header f)) 42 = le16at f 42 ∧
    le16at (ntoh_submit (ntoh_header f)) 44 = le16at f 44 ∧
    le16at (ntoh_submit (ntoh_header f)) 46 = le16at f 46 :=
  ⟨(le32at_ntoh_submit_20 (by simpa using h)).trans (be32at_ntoh_header_out (by omega)),
   (le32at_ntoh_submit_24 (by simpa using h)).trans (be32at_ntoh_header_out (by omega)),
   (le32at_ntoh_submit_28 (by simpa using h)).trans (be32at_ntoh_header_out (by omega)),
   (le32at_ntoh_submit_32 (by simpa using h)).trans (be32at_ntoh_header_out (by omega)),
   (le32at_ntoh_submit_36 (by simpa using h)).trans (be32at_ntoh_header_out (by omega)),
   (le16at_ntoh_submit_out (by omega)).trans (le16at_ntoh_header_out (by omega)),
   (le16at_ntoh_submit_out (by omega)).trans (le16at_ntoh_header_out (by omega)),
   (le16at_ntoh_submit_out (by omega)).trans (le16at_ntoh_header_out (by omega))⟩

theorem usbip_ntoh_unknown (f : List Nat) (h : 20 ≤ f.length)
    (h1 : be32at f 0 ≠ 1) (h2 : be32at f 0 ≠ 2) (h3 : be32at f 0 ≠ 3)
    (h4 : be32at f 0 ≠ 4) :
    usbip_ntoh f = (ENOTSUP, ntoh_header f) := by
  rw [usbip_ntoh_eq f h, if_neg h1, if_neg h2, if_neg h3, if_neg h4]

theorem usbip_ntoh_unlink_cmd (f : List Nat) (h : 20 ≤ f.length)
    (hc : be32at f 0 = 2) :
    usbip_ntoh f = (0, ntoh_unlink (ntoh_header f)) := by
  rw [usbip_ntoh_eq f h, hc]
  norm_num

theorem usbip_ntoh_unlink_ret (f : List Nat) (h : 20 ≤ f.length)
    (hc : be32at f 0 = 4) :
    usbip_ntoh f = (0, ntoh_unlink (ntoh_header f)) := by
  rw [usbip_ntoh_eq f h, hc]
  norm_num


theorem prod_fst_mk {α β : Type} (a : α) (b : β) : (a, b).1 = a := rfl

theorem prod_snd_mk {α β : Type} (a : α) (b : β) : (a, b).2 = b := rfl

theorem usbip_ntoh_snd_submit (f : List Nat) (h : 20 ≤ f.length)
    (hc : be32at f 0 = 1 ∨ be32at f 0 = 3) :
    (usbip_ntoh f).2 = ntoh_submit (ntoh_header f) := by
  have he := usbip_ntoh_eq f h
  rcases hc with hc | hc <;> rw [hc] at he <;> norm_num at he <;>
    exact (congrArg Prod.snd he).trans (prod_snd_mk _ _)

theorem usbip_ntoh_snd_unlink (f : List Nat) (h : 20 ≤ f.length)
    (hc : be32at f 0 = 2 ∨ be32at f 0 = 4) :
    (usbip_ntoh f).2 = ntoh_unlink (ntoh_header f) := by
  have he := usbip_ntoh_eq f h
  rcases hc with hc | hc <;> rw [hc] at he <;> norm_num at he <;>
    exact (congrArg Prod.snd he).trans (prod_snd_mk _ _)

theorem usbip_ntoh_fst_known (f : List Nat) (h : 20 ≤ f.length)
    (hc : be32at f 0 = 1 ∨ be32at f 0 = 2 ∨ be32at f 0 = 3 ∨ be32at f 0 = 4) :
    (usbip_ntoh f).1 = 0 := by
  have he := usbip_ntoh_eq f h
  rcases hc with hc | hc | hc | hc <;> rw [hc] at he <;> norm_num at he <;>
    exact (congrArg Prod.fst he).trans (prod_fst_mk _ _)

theorem usbip_ntoh_fst_unknown (f : List Nat) (h : 20 ≤ f.length)
    (h1 : be32at f 0 ≠ 1) (h2 : be32at f 0 ≠ 2) (h3 : be32at f 0 ≠ 3)
    (h4 : be32at f 0 ≠ 4) :
    (usbip_ntoh f).1 = ENOTSUP :=
  (congrArg Prod.fst (usbip_ntoh_unknown f h h1 h2 h3 h4)).trans
    (prod_fst_mk _ _)

theorem usbip_ntoh_snd_unknown (f : List Nat) (h : 20 ≤ f.length)
    (h1 : be32at f 0 ≠ 1) (h2 : be32at f 0 ≠ 2) (h3 : be32at f 0 ≠ 3)
    (h4 : be32at f 0 ≠ 4) :
    (usbip_ntoh f).2 = ntoh_header f :=
  (congrArg Prod.snd (usbip_ntoh_unknown f h h1 h2 h3 h4)).trans
    (prod_snd_mk _ _)

/-- C1: for every received frame, `usbip_ntoh` converts the five 32-bit
header fields from big-endian wire order to host order, and — whenever
the frame is a SubmitCommand or SubmitReply — converts the five 32-bit
payload fields outside the setup packet from big-endian wire order and
the setup packet's `wValue`/`wIndex`/`wLength` from little-endian wire
order: after normalization each field's host value equals the
big-endian (resp. little-endian) interpretation of its wire bytes. -/
theorem C1_mixed_endianness (f : List Nat) (hlen : f.length = 65536) :
    (le32at (usbip_ntoh f).2 0 = be32at f 0 ∧
     le32at (usbip_ntoh f).2 4 = be32at f 4 ∧
     le32at (usbip_ntoh f).2 8 = be32at f 8 ∧
     le32at (usbip_ntoh f).2 12 = be32at f 12 ∧
     le32at (usbip_ntoh f).2 16 = be32at f 16) ∧
    (be32at f 0 = USBIP_CMD_SUBMIT ∨ be32at f 0 = USBIP_RET_SUBMIT →
     le32at (usbip_ntoh f).2 20 = be32at f 20 ∧
     le32at (usbip_ntoh f).2 24 = be32at f 24 ∧
     le32at (usbip_ntoh f).2 28 = be32at f 28 ∧
     le32at (usbip_ntoh f).2 32 = be32at f 32 ∧
     le32at (usbip_ntoh f).2 36 = be32at f 36 ∧
     le16at (usbip_ntoh f).2 42 = le16at f 42 ∧
     le16at (usbip_ntoh f).2 44 = le16at f 44 ∧
     le16at (usbip_ntoh f).2 46 = le16at f 46) := by
  have h20 : 20 ≤ f.length := by omega
  have h40 : 40 ≤ f.length := by omega
  by_cases hsub : be32at f 0 = 1 ∨ be32at f 0 = 3
  · rw [usbip_ntoh_snd_submit f h20 hsub]
    exact ⟨header_reads_submit f h20, fun _ => submit_payload_reads f h40⟩
  · refine ⟨?_, fun hc => absurd hc hsub⟩
    by_cases hun : be32at f 0 = 2 ∨ be32at f 0 = 4
    · rw [usbip_ntoh_snd_unlink f h20 hun]
      exact header_reads_unlink f h20
    · rw [usbip_ntoh_snd_unknown f h20 (fun h => hsub (Or.inl h))
        (fun h => hun (Or.inl h)) (fun h => hsub (Or.inr h))
        (fun h => hun (Or.inr h))]
      exact ⟨le32at_ntoh_header_0 h20, le32at_ntoh_header_4 h20,
        le32at_ntoh_header_8 h20, le32at_ntoh_header_12 h20,
        le32at_ntoh_header_16 h20⟩

/-- Witness for C1 at the spec's endianness-table example: wire bytes
`00 00 00 01` for command decode to 1, wire bytes `00 00 00 10` for
`transfer_buffer_length` decode to 16, wire bytes `34 12` for the setup
`wValue` decode to 0x1234 = 4660. -/
theorem C1_mixed_endianness_witness :
    le32at (usbip_ntoh c1frame).2 0 = 1 ∧
    le32at (usbip_ntoh c1frame).2 24 = 16 ∧
    le16at (usbip_ntoh c1frame).2 42 = 4660 := by
  have hlen : c1frame.length = 65536 := by
    unfold c1frame
    rw [List.length_append, List.length_append, List.length_append,
      List.length_append, List.length_append, List.length_replicate,
      List.length_replicate, List.length_replicate]
    decide
  have h := C1_mixed_endianness c1frame hlen
  have hc : be32at c1frame 0 = USBIP_CMD_SUBMIT := by decide
  have hp := h.2 (Or.inl hc)
  exact ⟨h.1.1.trans (by decide), hp.2.1.trans (by decide),
    hp.2.2.2.2.2.1.trans (by decide)⟩

/-- C9: for UnlinkCommand/UnlinkReply frames, `usbip_ntoh` succeeds
after touching only the five 32-bit header words and the single 32-bit
unlink payload word: the frame keeps its size and every byte from
offset 24 on — the rest of the union region and all trailing padding up
to the maximum frame size — is left unchanged. -/
theorem C9_unlink_untouched_bytes (f : List Nat) (hlen : f.length = 65536)
    (hcmd : be32at f 0 = USBIP_CMD_UNLINK ∨ be32at f 0 = USBIP_RET_UNLINK) :
    (usbip_ntoh f).1 = 0 ∧ (usbip_ntoh f).2.length = 65536 ∧
    ∀ k, 24 ≤ k → (usbip_ntoh f).2.getD k 0 = f.getD k 0 := by
  have h20 : 20 ≤ f.length := by omega
  have hsnd := usbip_ntoh_snd_unlink f h20 hcmd
  refine ⟨usbip_ntoh_fst_known f h20 ?_, ?_, ?_⟩
  · rcases hcmd with hc | hc
    · exact Or.inr (Or.inl hc)
    · exact Or.inr (Or.inr (Or.inr hc))
  · rw [hsnd]
    simp [ntoh_unlink, hlen]
  · intro k hk
    rw [hsnd]
    unfold ntoh_unlink
    rw [getD_bswap4at_out (by omega), getD_ntoh_header_out (by omega)]

/-- Witness for C9: an UnlinkCommand frame decodes successfully and its
byte at offset 100 (inside the preserved region) is untouched. -/
theorem C9_unlink_untouched_bytes_witness :
    (usbip_ntoh c9frame).1 = 0 ∧
    (usbip_ntoh c9frame).2.getD 100 0 = c9frame.getD 100 0 := by
  have hlen : c9frame.length = 65536 := by
    unfold c9frame
    rw [List.length_append, List.length_replicate]
    decide
  have h := C9_unlink_untouched_bytes c9frame hlen (Or.inl (by decide))
  exact ⟨h.1, h.2.2 100 (by omega)⟩

/-- C10: when the command code is unrecognized, `usbip_ntoh` has
already converted the five 32-bit header fields in place before it
returns `ENOTSUP`: the caller's buffer is left as `ntoh_header f`,
whose header words hold the big-endian-decoded host values while every
byte from offset 20 on is unchanged.  The error path is not atomic. -/
theorem C10_error_path_swaps_header (f : List Nat) (hlen : f.length = 65536)
    (h1 : be32at f 0 ≠ 1) (h2 : be32at f 0 ≠ 2) (h3 : be32at f 0 ≠ 3)
    (h4 : be32at f 0 ≠ 4) :
    (usbip_ntoh f).1 = ENOTSUP ∧
    (usbip_ntoh f).2 = ntoh_header f ∧
    le32at (usbip_ntoh f).2 0 = be32at f 0 ∧
    le32at (usbip_ntoh f).2 4 = be32at f 4 ∧
    le32at (usbip_ntoh f).2 8 = be32at f 8 ∧
    le32at (usbip_ntoh f).2 12 = be32at f 12 ∧
    le32at (usbip_ntoh f).2 16 = be32at f 16 ∧
    ∀ k, 20 ≤ k → (usbip_ntoh f).2.getD k 0 = f.getD k 0 := by
  have h20 : 20 ≤ f.length := by omega
  have hsnd := usbip_ntoh_snd_unknown f h20 h1 h2 h3 h4
  rw [hsnd]
  exact ⟨usbip_ntoh_fst_unknown f h20 h1 h2 h3 h4, rfl,
    le32at_ntoh_header_0 h20, le32at_ntoh_header_4 h20,
    le32at_ntoh_header_8 h20, le32at_ntoh_header_12 h20,
    le32at_ntoh_header_16 h20, fun _ hk => getD_ntoh_header_out hk⟩

/-- Witness for C10: on the command-99 frame the normalizer returns
`ENOTSUP`, the header now decodes to 99 in host order, and the frame is
visibly different from the input (byte 0 was 0 and is now 99): the
caller's buffer was modified on the error path. -/
theorem C10_error_path_swaps_header_witness :
    (usbip_ntoh c99frame).1 = ENOTSUP ∧
    le32at (usbip_ntoh c99frame).2 0 = 99 ∧
    (usbip_ntoh c99frame).2.getD 0 0 ≠ c99frame.getD 0 0 := by
  have hlen : c99frame.length = 65536 := by
    unfold c99frame
    rw [List.length_append, List.length_replicate]
    decide
  have h := C10_error_path_swaps_header c99frame hlen (by decide) (by decide)
    (by decide) (by decide)
  refine ⟨h.1, h.2.2.1.trans (by decide), ?_⟩
  rw [h.2.1]
  decide

/-- C3: a frame whose command code is none of the four known kinds is
rejected, not accepted: `usbip_ntoh` returns `ENOTSUP` and the codec
reports `UnsupportedCommand` — there is no success path and no
default-initialized message. -/
theorem C3_unknown_command_rejected (f : List Nat) (hlen : f.length = 65536)
    (h1 : be32at f 0 ≠ 1) (h2 : be32at f 0 ≠ 2) (h3 : be32at f 0 ≠ 3)
    (h4 : be32at f 0 ≠ 4) :
    (usbip_ntoh f).1 = ENOTSUP ∧
    decode f = .error .UnsupportedCommand := by
  refine ⟨usbip_ntoh_fst_unknown f (by omega) h1 h2 h3 h4, ?_⟩
  simp [decode, USBIP_CMD_SUBMIT, USBIP_CMD_UNLINK, USBIP_RET_SUBMIT,
    USBIP_RET_UNLINK, h1, h2, h3, h4]

/-- Witness for C3 at the spec's example: command code 99. -/
theorem C3_unknown_command_rejected_witness :
    (usbip_ntoh c99frame).1 = ENOTSUP ∧
    decode c99frame = .error .UnsupportedCommand := by
  have hlen : c99frame.length = 65536 := by
    unfold c99frame
    rw [List.length_append, List.length_replicate]
    decide
  exact C3_unknown_command_rejected c99frame hlen (by decide) (by decide)
    (by decide) (by decide)

/-- C2 (evaluation of the code at the failing input): the source's
setup macros bind `>>` tighter than `&`, so `SETUP_DIR(rt)` computes
`rt & 1` and `SETUP_TYP(rt)` computes `rt & 3` instead of extracting
bits 7 and 6-5.  Hence `request_type = 0x80` renders direction "H2D",
not the claimed "D2H" (its recipient "device" and — coincidentally —
type "standard" agree with the claim), and `request_type = 0x20`,
whose type bits say "class", renders "standard". -/
theorem C2_setup_macro_precedence_bug :
    SETUP_DIR 128 = 0 ∧ usbip_setup_dir_str 128 = "H2D" ∧
    SETUP_TYP 32 = 0 ∧ usbip_setup_typ_str 32 = "standard" ∧
    usbip_setup_rcp_str 128 = "device" := by
  decide

/-- C7: the setup-byte decoders are total pure functions: every
`request_type` and every `request_code` byte yields one of a fixed set
of descriptive labels, request codes outside the recognized set map to
the explicit "<reserved>" label, and in particular code 6 renders as
"GET_DESCRIPTOR" while code 200 renders as "<reserved>". -/
theorem C7_setup_decoders_total (rt req : Nat) :
    usbip_setup_dir_str rt ∈ ["H2D", "D2H"] ∧
    usbip_setup_typ_str rt ∈ ["standard", "class", "vendor", "<reserved>"] ∧
    usbip_setup_rcp_str rt ∈
      ["device", "interface", "endpoint", "other", "<reserved>"] ∧
    usbip_setup_req_str req ∈
      ["GET_STATUS", "CLEAR_FEATURE", "SET_FEATURE", "SET_ADDRESS",
       "GET_DESCRIPTOR", "SET_DESCRIPTOR", "GET_CONFIGURATION",
       "SET_CONFIGURATION", "GET_INTERFACE", "SET_INTERFACE",
       "SYNCH_FRAME", "<reserved>"] ∧
    usbip_setup_req_str 6 = "GET_DESCRIPTOR" ∧
    usbip_setup_req_str 200 = "<reserved>" ∧
    (req ∉ ([0, 1, 3, 5, 6, 7, 8, 9, 10, 11, 12] : List Nat) →
      usbip_setup_req_str req = "<reserved>") := by
  refine ⟨?_, ?_, ?_, ?_, by decide, by decide, ?_⟩
  · unfold usbip_setup_dir_str
    split_ifs <;> simp
  · unfold usbip_setup_typ_str
    split_ifs <;> simp
  · unfold usbip_setup_rcp_str
    split_ifs <;> simp
  · by_cases hlt : req < 13
    · interval_cases req <;> simp [usbip_setup_req_str]
    · have n0 : req ≠ 0 := by omega
      have n1 : req ≠ 1 := by omega
      have n3 : req ≠ 3 := by omega
      have n5 : req ≠ 5 := by omega
      have n6 : req ≠ 6 := by omega
      have n7 : req ≠ 7 := by omega
      have n8 : req ≠ 8 := by omega
      have n9 : req ≠ 9 := by omega
      have n10 : req ≠ 10 := by omega
      have n11 : req ≠ 11 := by omega
      have n12 : req ≠ 12 := by omega
      have hr : usbip_setup_req_str req = "<reserved>" := by
        unfold usbip_setup_req_str
        rw [if_neg n0, if_neg n1, if_neg n3, if_neg n5, if_neg n6, if_neg n7,
          if_neg n8, if_neg n9, if_neg n10, if_neg n11, if_neg n12]
      rw [hr]
      simp
  · intro h
    simp only [List.mem_cons, List.not_mem_nil, or_false, not_or] at h
    obtain ⟨h0, h1, h3, h5, h6, h7, h8, h9, h10, h11, h12⟩ := h
    unfold usbip_setup_req_str
    rw [if_neg h0, if_neg h1, if_neg h3, if_neg h5, if_neg h6, if_neg h7,
      if_neg h8, if_neg h9, if_neg h10, if_neg h11, if_neg h12]

/-- Witness for C7: the two concrete request codes of the claim. -/
theorem C7_setup_decoders_total_witness :
    usbip_setup_req_str 200 = "<reserved>" ∧
    usbip_setup_req_str 6 = "GET_DESCRIPTOR" := by
  have h := C7_setup_decoders_total 0 200
  exact ⟨h.2.2.2.2.2.2 (by decide), h.2.2.2.2.1⟩

/-- C8: `usbip_dump` is a pure function of the message frame alone:
two calls on the same message produce identical text — there is no
hidden state that could make the runs differ. -/
theorem C8_render_deterministic (f g : List Nat) (h : f = g) :
    usbip_dump f = usbip_dump g :=
  congrArg usbip_dump h

/-- Witness for C8 at a concrete SubmitCommand frame. -/
theorem C8_render_deterministic_witness :
    usbip_dump c5okframe = usbip_dump c5okframe :=
  C8_render_deterministic c5okframe c5okframe rfl

/-! ### Dump loop lemmas -/

theorem dumpStep_none (f : List Nat) (off i : Nat) :
    dumpStep f off none i = none := by
  unfold dumpStep
  cases f.get? (off + i) <;> rfl

theorem foldl_dumpStep_none (f : List Nat) (off : Nat) (l : List Nat) :
    l.foldl (dumpStep f off) none = none := by
  induction l with
  | nil => rfl
  | cons a t ih =>
    rw [List.foldl_cons, dumpStep_none]
    exact ih

theorem dumpData_succ (f : List Nat) (off n : Nat) :
    dumpData f off (n+1) = dumpStep f off (dumpData f off n) n := by
  unfold dumpData
  rw [List.range_succ, List.foldl_append]
  rfl

theorem dumpStep_oob (f : List Nat) (off : Nat) (acc : Option String)
    (i : Nat) (h : f.length ≤ off + i) : dumpStep f off acc i = none := by
  unfold dumpStep
  rw [List.get?_eq_none.mpr h]
  cases acc <;> rfl

/-- If some iteration of the data loop reaches an offset at or past the
end of the frame, the loop performs an out-of-bounds read. -/
theorem dumpData_oob (f : List Nat) (off len k : Nat) (hk : k < len)
    (h : f.length ≤ off + k) : dumpData f off len = none := by
  induction len with
  | zero => omega
  | succ n ih =>
    rw [dumpData_succ]
    by_cases hkn : k < n
    · rw [ih hkn]
      exact dumpStep_none f off n
    · have hkn' : k = n := by omega
      subst hkn'
      exact dumpStep_oob f off _ k h

/-- If every iteration stays inside the frame, the data loop
succeeds. -/
theorem dumpData_isSome (f : List Nat) (off len : Nat)
    (h : off + len ≤ f.length) : (dumpData f off len).isSome := by
  induction len with
  | zero => rfl
  | succ n ih =>
    rw [dumpData_succ]
    obtain ⟨s, hs⟩ := Option.isSome_iff_exists.mp (ih (by omega))
    rw [hs]
    unfold dumpStep
    cases hb : f.get? (off + n) with
    | none =>
      have := List.get?_eq_none.mp hb
      omega
    | some b => rfl

theorem usbip_dump_submit_cmd_none (f : List Nat) (hc : le32at f 0 = 1)
    (hd : dumpData f 48 (le32at f 24) = none) : usbip_dump f = none := by
  unfold usbip_dump
  rw [hc, hd]
  rfl

theorem usbip_dump_submit_cmd_some (f : List Nat) (hc : le32at f 0 = 1)
    (hd : (dumpData f 48 (le32at f 24)).isSome) : (usbip_dump f).isSome := by
  unfold usbip_dump
  obtain ⟨d, hd'⟩ := Option.isSome_iff_exists.mp hd
  rw [hc, hd']
  rfl

theorem usbip_dump_submit_ret_none (f : List Nat) (hc : le32at f 0 = 3)
    (hd : dumpData f 48 (le32at f 24) = none) : usbip_dump f = none := by
  unfold usbip_dump
  rw [hc, hd]
  rfl

theorem usbip_dump_submit_ret_some (f : List Nat) (hc : le32at f 0 = 3)
    (hd : (dumpData f 48 (le32at f 24)).isSome) : (usbip_dump f).isSome := by
  unfold usbip_dump
  obtain ⟨d, hd'⟩ := Option.isSome_iff_exists.mp hd
  rw [hc, hd']
  rfl

/-- C5 (amended): `usbip_dump` performs no bounds check and emits no
truncation marker: its data loop prints exactly the declared number of
bytes (`transfer_buffer_length`/`actual_length`, offset 24).  On a
65536-byte frame the render succeeds whenever the declared length fits
the 65488 bytes that exist behind `data[]`, and reads past the end of
the frame — undefined behavior, modeled as `none` — whenever the
declared length exceeds them. -/
theorem C5_render_no_bounds_check (f : List Nat) (hlen : f.length = 65536)
    (hc : le32at f 0 = USBIP_CMD_SUBMIT ∨ le32at f 0 = USBIP_RET_SUBMIT) :
    (le32at f 24 ≤ 65488 → (usbip_dump f).isSome) ∧
    (65488 < le32at f 24 → usbip_dump f = none) := by
  constructor
  · intro hle
    have hd : (dumpData f 48 (le32at f 24)).isSome :=
      dumpData_isSome f 48 _ (by omega)
    rcases hc with hc | hc
    · exact usbip_dump_submit_cmd_some f hc hd
    · exact usbip_dump_submit_ret_some f hc hd
  · intro hgt
    have hd : dumpData f 48 (le32at f 24) = none :=
      dumpData_oob f 48 _ 65488 (by omega) (by omega)
    rcases hc with hc | hc
    · exact usbip_dump_submit_cmd_none f hc hd
    · exact usbip_dump_submit_ret_none f hc hd

/-- Witness for the amended C5: a SubmitCommand frame declaring 16 data
bytes renders successfully. -/
theorem C5_render_no_bounds_check_witness :
    (usbip_dump c5okframe).isSome := by
  have hlen : c5okframe.length = 65536 := by
    unfold c5okframe
    rw [List.length_append, List.length_append, List.length_append,
      List.length_replicate, List.length_replicate]
    decide
  exact (C5_render_no_bounds_check c5okframe hlen (Or.inl (by decide))).1
    (by decide)

/-- Counterexample to C5 as stated: on a SubmitReply frame declaring
`actual_length = 65489` — one byte more than exists behind `data[]` —
`usbip_dump` does not truncate and emits no marker; its data loop reads
past the end of the frame (modeled as `none`). -/
theorem C5_render_oob_counterexample : usbip_dump c5frame = none := by
  have hlen : c5frame.length = 65536 := by
    unfold c5frame
    rw [List.length_append, List.length_append, List.length_append,
      List.length_replicate, List.length_replicate]
    decide
  have h24 : le32at c5frame 24 = 65489 := by decide
  refine usbip_dump_submit_ret_none c5frame (by decide) ?_
  rw [h24]
  exact dumpData_oob c5frame 48 65489 65488 (by omega) (by omega)
theorem enc32be_length (v : Nat) : (enc32be v).length = 4 := rfl

theorem enc16le_length (v : Nat) : (enc16le v).length = 2 := rfl

theorem be32at_append_right (l rest : List Nat) (k : Nat) (h : l.length ≤ k) :
    be32at (l ++ rest) k = be32at rest (k - l.length) := by
  unfold be32at
  have e1 : k + 1 - l.length = k - l.length + 1 := by omega
  have e2 : k + 2 - l.length = k - l.length + 2 := by omega
  have e3 : k + 3 - l.length = k - l.length + 3 := by omega
  rw [List.getD_append_right _ _ _ _ h, List.getD_append_right _ _ _ _ (by omega),
    List.getD_append_right _ _ _ _ (by omega),
    List.getD_append_right _ _ _ _ (by omega), e1, e2, e3]

theorem le16at_append_right (l rest : List Nat) (k : Nat) (h : l.length ≤ k) :
    le16at (l ++ rest) k = le16at rest (k - l.length) := by
  unfold le16at
  have e1 : k + 1 - l.length = k - l.length + 1 := by omega
  rw [List.getD_append_right _ _ _ _ h, List.getD_append_right _ _ _ _ (by omega), e1]

theorem drop_append_right (l rest : List Nat) (k : Nat) (h : l.length ≤ k) :
    (l ++ rest).drop k = rest.drop (k - l.length) := by
  induction l generalizing k with
  | nil => simp
  | cons a t ih =>
    cases k with
    | zero => simp at h
    | succ n =>
      rw [List.cons_append, List.drop_succ_cons, ih n (by simpa using h)]
      congr 1
      simp [Nat.succ_sub_succ]

theorem be32at_enc32be (v : Nat) (rest : List Nat) (hv : v < 4294967296) :
    be32at (enc32be v ++ rest) 0 = v := by
  unfold be32at
  rw [List.getD_append _ _ _ _ (by rw [enc32be_length]; omega),
    List.getD_append _ _ _ _ (by rw [enc32be_length]; omega),
    List.getD_append _ _ _ _ (by rw [enc32be_length]; omega),
    List.getD_append _ _ _ _ (by rw [enc32be_length]; omega)]
  show v / 16777216 % 256 * 16777216 + v / 65536 % 256 * 65536 +
    v / 256 % 256 * 256 + v % 256 = v
  omega

theorem le16at_enc16le (v : Nat) (rest : List Nat) (hv : v < 65536) :
    le16at (enc16le v ++ rest) 0 = v := by
  unfold le16at
  rw [List.getD_append _ _ _ _ (by rw [enc16le_length]; omega),
    List.getD_append _ _ _ _ (by rw [enc16le_length]; omega)]
  show v % 256 + v / 256 % 256 * 256 = v
  omega

theorem getD_pair_0 (a b : Nat) (rest : List Nat) :
    (([a, b] ++ rest) : List Nat).getD 0 0 = a := rfl

theorem getD_pair_1 (a b : Nat) (rest : List Nat) :
    (([a, b] ++ rest) : List Nat).getD 1 0 = b := rfl
theorem be32at_enc32be_mod (v : Nat) (rest : List Nat) :
    be32at (enc32be v ++ rest) 0 = v % 4294967296 := by
  unfold be32at
  rw [List.getD_append _ _ _ _ (by rw [enc32be_length]; omega),
    List.getD_append _ _ _ _ (by rw [enc32be_length]; omega),
    List.getD_append _ _ _ _ (by rw [enc32be_length]; omega),
    List.getD_append _ _ _ _ (by rw [enc32be_length]; omega)]
  show v / 16777216 % 256 * 16777216 + v / 65536 % 256 * 65536 +
    v / 256 % 256 * 256 + v % 256 = v % 4294967296
  omega

theorem le16at_enc16le_mod (v : Nat) (rest : List Nat) :
    le16at (enc16le v ++ rest) 0 = v % 65536 := by
  unfold le16at
  rw [List.getD_append _ _ _ _ (by rw [enc16le_length]; omega),
    List.getD_append _ _ _ _ (by rw [enc16le_length]; omega)]
  show v % 256 + v / 256 % 256 * 256 = v % 65536
  omega

theorem be32at_skip4 (v : Nat) (rest : List Nat) (k : Nat) :
    be32at (enc32be v ++ rest) (k + 4) = be32at rest k := by
  have h : (enc32be v).length ≤ k + 4 := by rw [enc32be_length]; omega
  rw [be32at_append_right _ _ _ h, enc32be_length]
  congr 1

theorem le16at_skip4 (v : Nat) (rest : List Nat) (k : Nat) :
    le16at (enc32be v ++ rest) (k + 4) = le16at rest k := by
  have h : (enc32be v).length ≤ k + 4 := by rw [enc32be_length]; omega
  rw [le16at_append_right _ _ _ h, enc32be_length]
  congr 1

theorem le16at_skip2 (v : Nat) (rest : List Nat) (k : Nat) :
    le16at (enc16le v ++ rest) (k + 2) = le16at rest k := by
  have h : (enc16le v).length ≤ k + 2 := by rw [enc16le_length]; omega
  rw [le16at_append_right _ _ _ h, enc16le_length]
  congr 1

theorem le16at_skipPair (a b : Nat) (rest : List Nat) (k : Nat) :
    le16at (([a, b] : List Nat) ++ rest) (k + 2) = le16at rest k := by
  have h : ([a, b] : List Nat).length ≤ k + 2 := by simp
  rw [le16at_append_right _ _ _ h]
  congr 1

theorem getD_skip4 (v : Nat) (rest : List Nat) (k : Nat) :
    (enc32be v ++ rest).getD (k + 4) 0 = rest.getD k 0 := by
  have h : (enc32be v).length ≤ k + 4 := by rw [enc32be_length]; omega
  rw [List.getD_append_right _ _ _ _ h, enc32be_length]
  congr 1

theorem drop_skip4 (v : Nat) (rest : List Nat) (k : Nat) :
    (enc32be v ++ rest).drop (k + 4) = rest.drop k := by
  have h : (enc32be v).length ≤ k + 4 := by rw [enc32be_length]; omega
  rw [drop_append_right _ _ _ h, enc32be_length]
  congr 1

theorem drop_skip2 (v : Nat) (rest : List Nat) (k : Nat) :
    (enc16le v ++ rest).drop (k + 2) = rest.drop k := by
  have h : (enc16le v).length ≤ k + 2 := by rw [enc16le_length]; omega
  rw [drop_append_right _ _ _ h, enc16le_length]
  congr 1

theorem drop_skipPair (a b : Nat) (rest : List Nat) (k : Nat) :
    (([a, b] : List Nat) ++ rest).drop (k + 2) = rest.drop k := by
  have h : ([a, b] : List Nat).length ≤ k + 2 := by simp
  rw [drop_append_right _ _ _ h]
  congr 1
/-- C6: the codec round-trips: for every well-formed Message, encoding
it with the spec's byte-order table and decoding the resulting frame
yields the message back, field for field. -/
theorem C6_roundtrip (m : Message) (h : m.WF) :
    decode (encode m) = Except.ok m := by
  obtain ⟨sq, dv, dir, ep, p⟩ := m
  obtain ⟨hsq, hdv, hdir, hep, hp⟩ := h
  cases p with
  | submitCmd tf tbl sf np iv s d =>
    obtain ⟨bm, bR, wV, wI, wL⟩ := s
    obtain ⟨htf, htbl, hsf, hnp, hiv, hs, hd, hle, hbytes⟩ := hp
    obtain ⟨hbm, hbR, hwV, hwI, hwL⟩ := hs
    simp only [encode, encodeBody, Message.command, encodeSetup,
      List.append_assoc]
    simp only [decode, readSetup, USBIP_CMD_SUBMIT, USBIP_CMD_UNLINK,
      USBIP_RET_SUBMIT, USBIP_RET_UNLINK,
      be32at_skip4, le16at_skip4, le16at_skip2, le16at_skipPair,
      getD_skip4, getD_pair_0, getD_pair_1,
      drop_skip4, drop_skipPair, drop_skip2, List.drop_zero,
      be32at_enc32be_mod, le16at_enc16le_mod,
      Nat.mod_eq_of_lt hsq, Nat.mod_eq_of_lt hdv, Nat.mod_eq_of_lt hdir,
      Nat.mod_eq_of_lt hep, Nat.mod_eq_of_lt htf, Nat.mod_eq_of_lt htbl,
      Nat.mod_eq_of_lt hsf, Nat.mod_eq_of_lt hnp, Nat.mod_eq_of_lt hiv,
      Nat.mod_eq_of_lt hwV, Nat.mod_eq_of_lt hwI, Nat.mod_eq_of_lt hwL]
    rw [← hd, List.take_left]
    simp only [if_true]
  | submitRet st al sf np ec s d =>
    obtain ⟨bm, bR, wV, wI, wL⟩ := s
    obtain ⟨hst, hal, hsf, hnp, hec, hs, hd, hle, hbytes⟩ := hp
    obtain ⟨hbm, hbR, hwV, hwI, hwL⟩ := hs
    simp only [encode, encodeBody, Message.command, encodeSetup,
      List.append_assoc]
    simp only [decode, readSetup, USBIP_CMD_SUBMIT, USBIP_CMD_UNLINK,
      USBIP_RET_SUBMIT, USBIP_RET_UNLINK,
      be32at_skip4, le16at_skip4, le16at_skip2, le16at_skipPair,
      getD_skip4, getD_pair_0, getD_pair_1,
      drop_skip4, drop_skipPair, drop_skip2, List.drop_zero,
      be32at_enc32be_mod, le16at_enc16le_mod,
      Nat.mod_eq_of_lt hsq, Nat.mod_eq_of_lt hdv, Nat.mod_eq_of_lt hdir,
      Nat.mod_eq_of_lt hep, Nat.mod_eq_of_lt hst, Nat.mod_eq_of_lt hal,
      Nat.mod_eq_of_lt hsf, Nat.mod_eq_of_lt hnp, Nat.mod_eq_of_lt hec,
      Nat.mod_eq_of_lt hwV, Nat.mod_eq_of_lt hwI, Nat.mod_eq_of_lt hwL]
    rw [← hd, List.take_left]
    norm_num
  | unlinkCmd usq =>
    simp only [encode, encodeBody, Message.command, List.append_assoc]
    simp only [decode, readSetup, USBIP_CMD_SUBMIT, USBIP_CMD_UNLINK,
      USBIP_RET_SUBMIT, USBIP_RET_UNLINK,
      be32at_skip4, be32at_enc32be_mod,
      Nat.mod_eq_of_lt hsq, Nat.mod_eq_of_lt hdv, Nat.mod_eq_of_lt hdir,
      Nat.mod_eq_of_lt hep, Nat.mod_eq_of_lt hp]
    norm_num
  | unlinkRet st =>
    simp only [encode, encodeBody, Message.command, List.append_assoc]
    simp only [decode, readSetup, USBIP_CMD_SUBMIT, USBIP_CMD_UNLINK,
      USBIP_RET_SUBMIT, USBIP_RET_UNLINK,
      be32at_skip4, be32at_enc32be_mod,
      Nat.mod_eq_of_lt hsq, Nat.mod_eq_of_lt hdv, Nat.mod_eq_of_lt hdir,
      Nat.mod_eq_of_lt hep, Nat.mod_eq_of_lt hp]
    norm_num

/-- Witness for C6: a concrete well-formed SubmitCommand round-trips. -/
theorem C6_roundtrip_witness : decode (encode c6msg) = Except.ok c6msg :=
  C6_roundtrip c6msg
    (by simp [c6msg, Message.WF, Payload.WF, SetupPacket.WF])

/-- C4 (amended): the codec performs no truncation check at all: for
every buffer, `decode` returns either a message or
`UnsupportedCommand`, never `TruncatedBuffer` — `usbip_ntoh` only ever
returns 0 or `ENOTSUP`, and a declared variable length exceeding the
supplied bytes is filled from the zero-initialized receive frame
instead of being rejected. -/
theorem C4_decode_never_truncation (f : List Nat) (e : DecodeError)
    (h : decode f = Except.error e) : e = DecodeError.UnsupportedCommand := by
  simp only [decode] at h
  split_ifs at h
  all_goals first
    | exact Except.noConfusion h
    | (simp only [Except.error.injEq] at h
       exact h.symm)

/-- Witness for the amended C4: the only error `decode` ever produces
is `UnsupportedCommand`, here at the command-99 frame. -/
theorem C4_decode_never_truncation_witness :
    decode c99frame = Except.error DecodeError.UnsupportedCommand ∧
    DecodeError.UnsupportedCommand = DecodeError.UnsupportedCommand := by
  have hd : decode c99frame = Except.error DecodeError.UnsupportedCommand := by
    rfl
  exact ⟨hd, C4_decode_never_truncation c99frame DecodeError.UnsupportedCommand hd⟩

/-- Counterexample to C4 as stated: the spec's own truncation example —
a 58-byte SubmitReply datagram declaring `actual_length = 64` but
supplying only 10 trailing bytes — decodes successfully (the 54 missing
bytes are read as zeros from the zero-initialized frame); it does not
yield `TruncatedBuffer`. -/
theorem C4_truncation_counterexample :
    decode (recvFrame c4buf) = Except.ok c4msg ∧
    decode (recvFrame c4buf) ≠ Except.error DecodeError.TruncatedBuffer := by
  have h : decode (recvFrame c4buf) = Except.ok c4msg := by rfl
  refine ⟨h, ?_⟩
  rw [h]
  intro hcon
  exact Except.noConfusion hcon
